import Mathlib

/-!
Shallow embedding of `src/lib/vrl/cli/src/tutorial.rs` — the VRL interactive
tutorial session controller.

The expression-language `Value`, the compiler state and the runtime state are
external collaborator types; they are abstracted as type parameters `V`, `C`
and `R`, with `[DecidableEq V]` standing for the deep value equality (`==` on
`vrl::Value`) that the controller uses as its correctness oracle.  The whole
evaluation pipeline behind `resolve_to_value` is abstracted as an oracle
`EvalFn`: given the source text, the current working value and the persistent
compiler/runtime states, it yields the (possibly mutated) working value, the
updated states and `Ok(result)` or `Err(message)`.

Terminal output is modelled as a trace of `Output` events emitted by each
turn; the event `Output.bridge p` is an instrumentation marker recording that
the source text `p` was submitted to `resolve_to_value` (the Evaluation
Bridge).  The `history` field of a session records exactly the lines the code
passes to `rl.add_history_entry` on the outer editor; the nested `'next` loop
creates a fresh editor and never calls `add_history_entry`.
-/

namespace VRLTutorial

/-- One lesson record (`struct Tutorial` in the source).  `initial_event` is
the per-session mutable working value; `correct_answer` is the target.  The
Rust field `section` is named `sec` here because `section` is a Lean keyword. -/
structure Tutorial (V : Type) where
  sec : Nat
  id : Nat
  title : String
  help_text : String
  docs : String
  correct_answer : V
  initial_event : V
deriving DecidableEq

/-- Outcome of one `rl.readline` call: the `rustyline` results the code
distinguishes (`Ok(line)`, `Err(Interrupted)`, `Err(Eof)`, any other error). -/
inductive ReadResult where
  | ok (line : String)
  | interrupted
  | eof
  | failed (msg : String)
deriving DecidableEq

/-- Control position of the session: the body of the `'outer` loop
(`browsing`), the nested `'next` acknowledgment loop entered after a correct
answer (`gated`), or after `break 'outer` / function return (`terminated`). -/
inductive Mode where
  | browsing
  | gated
  | terminated
deriving DecidableEq

/-- One observable event of a turn: a print, a screen clear, a request to open
a docs URL, or the instrumentation marker `bridge` recording a submission to
`resolve_to_value`.  `render i t` is `print_tutorial_help_text(i, tutorials)`
with `t = tutorials[i]` (it prints the number, title, help text and current
working value).  `panicked` marks an out-of-bounds `tutorials[index]` access,
which in Rust would abort the process. -/
inductive Output (V : Type) where
  | clearScreen
  | render (index : Nat) (t : Tutorial V)
  | helpText
  | completion
  | backAtBeginning
  | openDocs (url : String)
  | cheatAnswer (v : V)
  | bridge (program : String)
  | success (v : V)
  | progress (completed total nextNum : Nat)
  | result (v : V)
  | evalErr (msg : String)
  | reprompt
  | unableToRead (msg : String)
  | panicked
deriving DecidableEq

/-- Result of one `resolve_to_value` call: the working value as the evaluator
left it (mutated in place, also on failure), the updated compiler and runtime
states, and the returned `Result<Value, String>`. -/
structure EvalOut (V C R : Type) where
  event : V
  comp : C
  runt : R
  res : Except String V

/-- The Evaluation Bridge `resolve_to_value(object, runtime, program, state)`,
abstracted: source text → working value → compiler state → runtime state →
outcome. -/
def EvalFn (V C R : Type) := String → V → C → R → EvalOut V C R

/-- The mutable state of `tutorial()`: current lesson index, the lesson list
(whose `initial_event` fields evaluation mutates in place), the persistent
compiler and runtime states, the outer editor's recall history, and the
control position. -/
structure Session (V C R : Type) where
  index : Nat
  tutorials : List (Tutorial V)
  compiler_state : C
  rt : R
  history : List String
  mode : Mode
deriving DecidableEq

variable {V C R : Type} [DecidableEq V]

/-- The session state on entry to the `'outer` loop: index 0, default states,
empty history, browsing. -/
def initSession (tutorials : List (Tutorial V)) (cs : C) (rt : R) :
    Session V C R :=
  { index := 0, tutorials := tutorials, compiler_state := cs, rt := rt,
    history := [], mode := Mode.browsing }

/-- The evaluation half of the catch-all `command` arm (source lines 96-151):
call `resolve_to_value` on lesson `t` (which sits at `s.index`), store the
mutated working value back into the lesson list, update the compiler and
runtime states, then dispatch on the `Ok`/`Err` outcome, comparing the mutated
working value with the target on success.  The caller has already appended the
line to the history and emitted the `cheat` printout when applicable. -/
def evalDispatch (ev : EvalFn V C R) (s : Session V C R) (t : Tutorial V)
    (command : String) : Session V C R × List (Output V) :=
  let o := ev command t.initial_event s.compiler_state s.rt
  let base : Session V C R :=
    { s with
        tutorials := s.tutorials.set s.index { t with initial_event := o.event },
        compiler_state := o.comp, rt := o.runt }
  match o.res with
  | Except.ok result =>
      if o.event = t.correct_answer then
        if s.index + 1 = s.tutorials.length then
          ({ base with mode := Mode.terminated },
           [Output.clearScreen, Output.success o.event, Output.completion])
        else
          ({ base with mode := Mode.gated },
           [Output.clearScreen, Output.success o.event,
            Output.progress (s.index + 1) s.tutorials.length (s.index + 2)])
      else (base, [Output.result result])
  | Except.error msg => (base, [Output.evalErr msg])

/-- One turn of the controller: consume one `readline` outcome and produce the
next state together with the emitted output events.  `browsing` is one pass of
the `'outer` loop body (source lines 43-162); `gated` is one pass of the
nested `'next` loop (lines 119-139) together with the post-loop index advance
and render (lines 141-142); `terminated` consumes nothing.  Note that in the
nested loop the catch-all `_` arm also swallows read errors, and that the
`exit`/`quit` arm of the outer loop fires before `add_history_entry`. -/
def step (ev : EvalFn V C R) (s : Session V C R) (r : ReadResult) :
    Session V C R × List (Output V) :=
  match s.mode with
  | Mode.terminated => (s, [])
  | Mode.gated =>
      match r with
      | ReadResult.ok line =>
          if line = "exit" ∨ line = "quit" then
            ({ s with mode := Mode.terminated }, [])
          else if line = "next" then
            let s2 := { s with index := s.index + 1, mode := Mode.browsing }
            match s2.tutorials[s2.index]? with
            | some t => (s2, [Output.clearScreen, Output.render s2.index t])
            | none => ({ s2 with mode := Mode.terminated },
                       [Output.clearScreen, Output.panicked])
          else (s, [Output.reprompt])
      | _ => (s, [Output.reprompt])
  | Mode.browsing =>
      match r with
      | ReadResult.interrupted => ({ s with mode := Mode.terminated }, [])
      | ReadResult.eof => ({ s with mode := Mode.terminated }, [])
      | ReadResult.failed msg =>
          ({ s with mode := Mode.terminated }, [Output.unableToRead msg])
      | ReadResult.ok line =>
          if line = "exit" ∨ line = "quit" then
            ({ s with mode := Mode.terminated }, [])
          else
            let s1 := { s with history := s.history ++ [line] }
            if line = "" then (s1, [])
            else if line = "help" then (s1, [Output.helpText])
            else if line = "next" then
              if s1.index + 1 = s1.tutorials.length then
                ({ s1 with mode := Mode.terminated },
                 [Output.clearScreen, Output.completion])
              else
                let s2 := { s1 with index := s1.index + 1 }
                match s2.tutorials[s2.index]? with
                | some t => (s2, [Output.clearScreen, Output.render s2.index t])
                | none => ({ s2 with mode := Mode.terminated },
                           [Output.clearScreen, Output.panicked])
            else if line = "prev" then
              let outs := if s1.index = 0 then
                  [Output.clearScreen, Output.backAtBeginning]
                else [Output.clearScreen]
              let s2 := { s1 with index := s1.index - 1 }
              match s2.tutorials[s2.index]? with
              | some t => (s2, outs ++ [Output.render s2.index t])
              | none => ({ s2 with mode := Mode.terminated },
                         outs ++ [Output.panicked])
            else if line = "docs" then
              match s1.tutorials[s1.index]? with
              | some t =>
                  (s1, [Output.openDocs ("https://vrl.dev/" ++ t.docs),
                        Output.clearScreen])
              | none => ({ s1 with mode := Mode.terminated }, [Output.panicked])
            else
              match s1.tutorials[s1.index]? with
              | none => ({ s1 with mode := Mode.terminated }, [Output.panicked])
              | some t =>
                  let pre := if line = "cheat" then
                      [Output.clearScreen, Output.cheatAnswer t.correct_answer]
                    else []
                  let p := evalDispatch ev s1 t line
                  (p.1, pre ++ [Output.bridge line] ++ p.2)

/-- The session-state invariant of the controller: the current index is in
bounds, and while the nested acknowledgment loop runs (`gated`) there is a
next lesson to advance to (the gate is only entered when `index + 1` is not
the curriculum length). -/
def lessonInv (s : Session V C R) : Prop :=
  s.index < s.tutorials.length ∧
    (s.mode = Mode.gated → s.index + 1 < s.tutorials.length)

/-! ### Concrete fixtures used by witnesses and counterexamples -/

/-- A lesson with the given target and seed working value. -/
def sampleTut (target seed : Nat) : Tutorial Nat :=
  { sec := 1, id := 1, title := "t", help_text := "h", docs := "d",
    correct_answer := target, initial_event := seed }

/-- An evaluation oracle that adds `delta` to the working value and returns
`Ok res`. -/
def evAdd (delta res : Nat) : EvalFn Nat Unit Unit :=
  fun _ v _ _ =>
    { event := v + delta, comp := (), runt := (), res := Except.ok res }

/-- An evaluation oracle that adds `delta` to the working value (a partial
mutation) and then fails with diagnostic `msg`. -/
def evBad (msg : String) (delta : Nat) : EvalFn Nat Unit Unit :=
  fun _ v _ _ =>
    { event := v + delta, comp := (), runt := (), res := Except.error msg }

/-- A two-lesson curriculum: lesson 0 has target 9 and seed 0, lesson 1 has
target 5 and seed 1. -/
def sampleTuts : List (Tutorial Nat) := [sampleTut 9 0, sampleTut 5 1]

/-- The session at the start of the outer loop over `sampleTuts`. -/
def sampleStart : Session Nat Unit Unit := initSession sampleTuts () ()

/-- A gated state actually reached by solving lesson 0 of `sampleTuts` (the
oracle adds 9 to the seed 0, matching the target 9). -/
def sampleGated : Session Nat Unit Unit :=
  (step (evAdd 9 0) sampleStart (ReadResult.ok "go")).1

/-! ### Claims -/

/-- C1: while `Browsing(i)`, a line routed to evaluation on which the
Evaluation Bridge succeeds is handled by comparing the mutated working value
with lesson `i`'s target: if they deep-equal, the success message carrying the
final working value is printed and then either (when `i + 1` equals the
curriculum length) the course-completion message is printed and the session
terminates, or a progress message naming `i + 1` completed of `len` total is
printed and the session enters `Gated(i)`; if they differ, the expression's
returned result value is printed and the session stays `Browsing(i)`. -/
theorem claim1_eval_outcomes (ev : EvalFn V C R) (i : Nat)
    (tuts : List (Tutorial V)) (cs : C) (rtS : R) (hist : List String)
    (t : Tutorial V) (line : String) (v2 : V) (cs2 : C) (rt2 : R) (res : V)
    (ht : tuts[i]? = some t)
    (hcmd : line ∉ (["", "exit", "quit", "help", "next", "prev", "docs",
      "cheat"] : List String))
    (heval : ev line t.initial_event cs rtS = ⟨v2, cs2, rt2, Except.ok res⟩) :
    (v2 = t.correct_answer → i + 1 = tuts.length →
        step ev ⟨i, tuts, cs, rtS, hist, Mode.browsing⟩ (ReadResult.ok line) =
          (⟨i, tuts.set i { t with initial_event := v2 }, cs2, rt2,
            hist ++ [line], Mode.terminated⟩,
           [Output.bridge line, Output.clearScreen, Output.success v2,
            Output.completion]))
    ∧ (v2 = t.correct_answer → i + 1 ≠ tuts.length →
        step ev ⟨i, tuts, cs, rtS, hist, Mode.browsing⟩ (ReadResult.ok line) =
          (⟨i, tuts.set i { t with initial_event := v2 }, cs2, rt2,
            hist ++ [line], Mode.gated⟩,
           [Output.bridge line, Output.clearScreen, Output.success v2,
            Output.progress (i + 1) tuts.length (i + 2)]))
    ∧ (v2 ≠ t.correct_answer →
        step ev ⟨i, tuts, cs, rtS, hist, Mode.browsing⟩ (ReadResult.ok line) =
          (⟨i, tuts.set i { t with initial_event := v2 }, cs2, rt2,
            hist ++ [line], Mode.browsing⟩,
           [Output.bridge line, Output.result res])) := by
  simp only [List.mem_cons, List.mem_singleton, not_or] at hcmd
  obtain ⟨h0, hexit, hquit, hhelp, hnext, hprev, hdocs, hcheat⟩ := hcmd
  refine ⟨?_, ?_, ?_⟩
  · intro heq hlen
    simp [step, evalDispatch, h0, hexit, hquit, hhelp, hnext, hprev, hdocs,
      hcheat, ht, heval, heq, hlen]
  · intro heq hlen
    simp [step, evalDispatch, h0, hexit, hquit, hhelp, hnext, hprev, hdocs,
      hcheat, ht, heval, heq, hlen]
  · intro hne
    simp [step, evalDispatch, h0, hexit, hquit, hhelp, hnext, hprev, hdocs,
      hcheat, ht, heval, hne]

/-- Witness for C1: the gated branch on the sample curriculum: the oracle
mutates the working value 0 to 9, which equals lesson 0's target, so the
success and progress messages are printed and the session gates at index 0. -/
theorem claim1_eval_outcomes_witness :
    step (evAdd 9 0) ⟨0, sampleTuts, (), (), [], Mode.browsing⟩
        (ReadResult.ok ".a = 1") =
      (⟨0, [sampleTut 9 9, sampleTut 5 1], (), (), [".a = 1"], Mode.gated⟩,
       [Output.bridge ".a = 1", Output.clearScreen, Output.success 9,
        Output.progress 1 2 2]) := by
  have h := (claim1_eval_outcomes (evAdd 9 0) 0 sampleTuts () () []
    (sampleTut 9 0) ".a = 1" 9 () () 0 (by decide) (by decide) rfl).2.1
    rfl (by decide)
  exact h.trans (by decide)

/-- C2: while `Gated(i)`, `"next"` advances to `Browsing(i+1)` and renders
lesson `i+1`, `"exit"`/`"quit"` terminate, and every other line leaves the
whole state unchanged (index, lessons, history) while printing only the
re-prompt reminder — in particular the Evaluation Bridge is never invoked. -/
theorem claim2_gated_loop (ev : EvalFn V C R) (i : Nat)
    (tuts : List (Tutorial V)) (cs : C) (rtS : R) (hist : List String) :
    (∀ t, tuts[i + 1]? = some t →
        step ev ⟨i, tuts, cs, rtS, hist, Mode.gated⟩ (ReadResult.ok "next") =
          (⟨i + 1, tuts, cs, rtS, hist, Mode.browsing⟩,
           [Output.clearScreen, Output.render (i + 1) t]))
    ∧ step ev ⟨i, tuts, cs, rtS, hist, Mode.gated⟩ (ReadResult.ok "exit") =
        (⟨i, tuts, cs, rtS, hist, Mode.terminated⟩, [])
    ∧ step ev ⟨i, tuts, cs, rtS, hist, Mode.gated⟩ (ReadResult.ok "quit") =
        (⟨i, tuts, cs, rtS, hist, Mode.terminated⟩, [])
    ∧ (∀ line, line ≠ "next" → line ≠ "exit" → line ≠ "quit" →
        step ev ⟨i, tuts, cs, rtS, hist, Mode.gated⟩ (ReadResult.ok line) =
          (⟨i, tuts, cs, rtS, hist, Mode.gated⟩, [Output.reprompt])) := by
  refine ⟨?_, ?_, ?_, ?_⟩
  · intro t ht
    simp [step, ht]
  · simp [step]
  · simp [step]
  · intro line hn he hq
    simp [step, hn, he, hq]

/-- Witness for C2: in the gated state reached by solving lesson 0, language
input is only re-prompted and the state is untouched, while `"next"` advances
to lesson 1. -/
theorem claim2_gated_loop_witness :
    step (evAdd 9 0) ⟨0, sampleTuts, (), (), ["go"], Mode.gated⟩
        (ReadResult.ok ".a = 2") =
      (⟨0, sampleTuts, (), (), ["go"], Mode.gated⟩, [Output.reprompt])
    ∧ step (evAdd 9 0) ⟨0, sampleTuts, (), (), ["go"], Mode.gated⟩
        (ReadResult.ok "next") =
      (⟨1, sampleTuts, (), (), ["go"], Mode.browsing⟩,
       [Output.clearScreen, Output.render 1 (sampleTut 5 1)]) := by
  constructor
  · exact (claim2_gated_loop (evAdd 9 0) 0 sampleTuts () () ["go"]).2.2.2
      ".a = 2" (by decide) (by decide) (by decide)
  · exact (claim2_gated_loop (evAdd 9 0) 0 sampleTuts () () ["go"]).1
      (sampleTut 5 1) (by decide)

/-- C3: `"next"` from a non-final index moves to `i + 1` (rendering lesson
`i + 1`), `"next"` from the final index prints the completion message and
terminates, `"prev"` from `i > 0` moves to `i - 1`, and `"prev"` from 0 stays
at 0 after the back-at-the-beginning message (saturating decrement). -/
theorem claim3_next_prev_ordering (ev : EvalFn V C R) (i : Nat)
    (tuts : List (Tutorial V)) (cs : C) (rtS : R) (hist : List String) :
    (∀ t, tuts[i + 1]? = some t →
        step ev ⟨i, tuts, cs, rtS, hist, Mode.browsing⟩
            (ReadResult.ok "next") =
          (⟨i + 1, tuts, cs, rtS, hist ++ ["next"], Mode.browsing⟩,
           [Output.clearScreen, Output.render (i + 1) t]))
    ∧ (i + 1 = tuts.length →
        step ev ⟨i, tuts, cs, rtS, hist, Mode.browsing⟩
            (ReadResult.ok "next") =
          (⟨i, tuts, cs, rtS, hist ++ ["next"], Mode.terminated⟩,
           [Output.clearScreen, Output.completion]))
    ∧ (∀ t, 0 < i → tuts[i - 1]? = some t →
        step ev ⟨i, tuts, cs, rtS, hist, Mode.browsing⟩
            (ReadResult.ok "prev") =
          (⟨i - 1, tuts, cs, rtS, hist ++ ["prev"], Mode.browsing⟩,
           [Output.clearScreen, Output.render (i - 1) t]))
    ∧ (∀ t, i = 0 → tuts[0]? = some t →
        step ev ⟨i, tuts, cs, rtS, hist, Mode.browsing⟩
            (ReadResult.ok "prev") =
          (⟨0, tuts, cs, rtS, hist ++ ["prev"], Mode.browsing⟩,
           [Output.clearScreen, Output.backAtBeginning,
            Output.render 0 t])) := by
  refine ⟨?_, ?_, ?_, ?_⟩
  · intro t ht
    have hlt : i + 1 < tuts.length := (List.getElem?_eq_some.mp ht).1
    simp [step, Nat.ne_of_lt hlt, ht]
  · intro h
    simp [step, h]
  · intro t h0 ht
    simp [step, Nat.pos_iff_ne_zero.mp h0, ht]
  · rintro t rfl ht
    simp [step, ht]

/-- Witness for C3: on the two-lesson sample curriculum, `"next"` from 0 moves
to 1, `"next"` from 1 completes and terminates, `"prev"` from 1 moves to 0,
and `"prev"` from 0 stays at 0 with the back-at-the-beginning message. -/
theorem claim3_next_prev_ordering_witness :
    step (evAdd 1 0) sampleStart (ReadResult.ok "next") =
      (⟨1, sampleTuts, (), (), ["next"], Mode.browsing⟩,
       [Output.clearScreen, Output.render 1 (sampleTut 5 1)])
    ∧ step (evAdd 1 0) ⟨1, sampleTuts, (), (), [], Mode.browsing⟩
        (ReadResult.ok "next") =
      (⟨1, sampleTuts, (), (), ["next"], Mode.terminated⟩,
       [Output.clearScreen, Output.completion])
    ∧ step (evAdd 1 0) ⟨1, sampleTuts, (), (), [], Mode.browsing⟩
        (ReadResult.ok "prev") =
      (⟨0, sampleTuts, (), (), ["prev"], Mode.browsing⟩,
       [Output.clearScreen, Output.render 0 (sampleTut 9 0)])
    ∧ step (evAdd 1 0) sampleStart (ReadResult.ok "prev") =
      (⟨0, sampleTuts, (), (), ["prev"], Mode.browsing⟩,
       [Output.clearScreen, Output.backAtBeginning,
        Output.render 0 (sampleTut 9 0)]) := by
  refine ⟨?_, ?_, ?_, ?_⟩
  · exact (claim3_next_prev_ordering (evAdd 1 0) 0 sampleTuts () () []).1
      (sampleTut 5 1) (by decide)
  · exact (claim3_next_prev_ordering (evAdd 1 0) 1 sampleTuts () () []).2.1
      (by decide)
  · exact (claim3_next_prev_ordering (evAdd 1 0) 1 sampleTuts () () []).2.2.1
      (sampleTut 9 0) (by decide) (by decide)
  · exact (claim3_next_prev_ordering (evAdd 1 0) 0 sampleTuts () () []).2.2.2
      (sampleTut 9 0) rfl (by decide)

/-- Counterexample to C4 as stated: `"cheat"` sits in the catch-all `command`
arm of the source (lines 85-96), so after printing the target it falls through
to `resolve_to_value`.  With an oracle that mutates the working value, the
turn on `"cheat"` submits the line to the Evaluation Bridge and changes
lesson 0's working value, refuting both the no-submission and the
frame conditions of the claim. -/
theorem claim4_cheat_counterexample :
    Output.bridge "cheat" ∈
        (step (evAdd 1 0) sampleStart (ReadResult.ok "cheat")).2
    ∧ ((step (evAdd 1 0) sampleStart
          (ReadResult.ok "cheat")).1.tutorials[0]?).map Tutorial.initial_event
        ≠ (sampleStart.tutorials[0]?).map Tutorial.initial_event := by
  decide

/-- C4 amended: on the exact input `"cheat"` while `Browsing(i)` the
controller clears the screen and prints lesson `i`'s target value verbatim,
and then the line `"cheat"` is additionally submitted to the Evaluation
Bridge as ordinary language input, the rest of the turn following the
ordinary evaluation rules (so the working value, compiler/runtime state and
session mode may change accordingly). -/
theorem claim4_cheat_amended (ev : EvalFn V C R) (i : Nat)
    (tuts : List (Tutorial V)) (cs : C) (rtS : R) (hist : List String)
    (t : Tutorial V) (ht : tuts[i]? = some t) :
    step ev ⟨i, tuts, cs, rtS, hist, Mode.browsing⟩ (ReadResult.ok "cheat") =
      ((evalDispatch ev ⟨i, tuts, cs, rtS, hist ++ ["cheat"], Mode.browsing⟩
          t "cheat").1,
       Output.clearScreen :: Output.cheatAnswer t.correct_answer ::
         Output.bridge "cheat" ::
           (evalDispatch ev ⟨i, tuts, cs, rtS, hist ++ ["cheat"],
             Mode.browsing⟩ t "cheat").2) := by
  simp [step, ht]

/-- Witness for the amended C4: on the sample curriculum with the mutating
oracle, `"cheat"` prints the target 9, is submitted to the bridge, and the
failed comparison (working value 1 versus target 9) prints the result. -/
theorem claim4_cheat_amended_witness :
    step (evAdd 1 0) sampleStart (ReadResult.ok "cheat") =
      (⟨0, [sampleTut 9 1, sampleTut 5 1], (), (), ["cheat"], Mode.browsing⟩,
       [Output.clearScreen, Output.cheatAnswer 9, Output.bridge "cheat",
        Output.result 0]) := by
  have h := claim4_cheat_amended (evAdd 1 0) 0 sampleTuts () () []
    (sampleTut 9 0) (by decide)
  exact h.trans (by decide)

/-- C5: for a non-empty curriculum the invariant
`0 ≤ index < len(curriculum)` (strengthened over the gate with
`index + 1 < len`, which is what makes the gated advance safe) holds in the
initial state and is preserved by every transition of the session loop. -/
theorem claim5_index_invariant (ev : EvalFn V C R) (s : Session V C R)
    (r : ReadResult) (tuts : List (Tutorial V)) (cs : C) (rtS : R) :
    (0 < tuts.length → lessonInv (initSession tuts cs rtS : Session V C R))
    ∧ (lessonInv s → lessonInv (step ev s r).1) := by
  constructor
  · intro h
    exact ⟨h, by simp [initSession]⟩
  · obtain ⟨i, tuts2, cs2, rt2, hist, m⟩ := s
    rintro ⟨h1, h2⟩
    simp only [lessonInv] at h1 h2 ⊢
    cases m <;> cases r <;> simp only [step, evalDispatch] <;>
      repeat' split
    all_goals
      simp_all [List.length_set, List.getElem?_eq_none_iff]
    all_goals omega

/-- Witness for C5: the invariant holds at the sample start state and is
preserved by the turn that solves lesson 0 and gates. -/
theorem claim5_index_invariant_witness :
    lessonInv ((step (evAdd 9 0) sampleStart (ReadResult.ok "go")).1) := by
  exact (claim5_index_invariant (evAdd 9 0) sampleStart (ReadResult.ok "go")
    sampleTuts () ()).2 ⟨by decide, fun h => absurd h (by decide)⟩

/-- C6: when the Evaluation Bridge fails on a line of language input for
lesson `i`, the diagnostic is printed, the session stays `Browsing(i)`, and
the working value is not rolled back: it remains exactly as the failed
attempt left it, so a second failed attempt on the same lesson starts from
the value the first attempt produced. -/
theorem claim6_failed_eval_persists (ev : EvalFn V C R) (i : Nat)
    (tuts : List (Tutorial V)) (cs : C) (rtS : R) (hist : List String)
    (t : Tutorial V) (line : String) (v2 : V) (cs2 : C) (rt2 : R)
    (msg : String)
    (ht : tuts[i]? = some t)
    (hcmd : line ∉ (["", "exit", "quit", "help", "next", "prev", "docs",
      "cheat"] : List String))
    (heval : ev line t.initial_event cs rtS = ⟨v2, cs2, rt2,
      Except.error msg⟩) :
    step ev ⟨i, tuts, cs, rtS, hist, Mode.browsing⟩ (ReadResult.ok line) =
      (⟨i, tuts.set i { t with initial_event := v2 }, cs2, rt2,
        hist ++ [line], Mode.browsing⟩,
       [Output.bridge line, Output.evalErr msg])
    ∧ (tuts.set i { t with initial_event := v2 })[i]? =
        some { t with initial_event := v2 }
    ∧ (∀ line2 v3 cs3 rt3 msg2,
        line2 ∉ (["", "exit", "quit", "help", "next", "prev", "docs",
          "cheat"] : List String) →
        ev line2 v2 cs2 rt2 = ⟨v3, cs3, rt3, Except.error msg2⟩ →
        step ev (step ev ⟨i, tuts, cs, rtS, hist, Mode.browsing⟩
            (ReadResult.ok line)).1 (ReadResult.ok line2) =
          (⟨i, tuts.set i { t with initial_event := v3 }, cs3, rt3,
            hist ++ [line, line2], Mode.browsing⟩,
           [Output.bridge line2, Output.evalErr msg2])) := by
  simp only [List.mem_cons, List.mem_singleton, not_or] at hcmd
  obtain ⟨h0, hexit, hquit, hhelp, hnext, hprev, hdocs, hcheat⟩ := hcmd
  have hi : i < tuts.length := by
    rcases List.getElem?_eq_some.mp ht with ⟨h, _⟩
    exact h
  have hstep1 : step ev ⟨i, tuts, cs, rtS, hist, Mode.browsing⟩
      (ReadResult.ok line) =
      (⟨i, tuts.set i { t with initial_event := v2 }, cs2, rt2,
        hist ++ [line], Mode.browsing⟩,
       [Output.bridge line, Output.evalErr msg]) := by
    simp [step, evalDispatch, h0, hexit, hquit, hhelp, hnext, hprev, hdocs,
      hcheat, ht, heval]
  have hset : (tuts.set i { t with initial_event := v2 })[i]? =
      some { t with initial_event := v2 } := by
    simp [List.getElem?_set, hi]
  refine ⟨hstep1, hset, ?_⟩
  intro line2 v3 cs3 rt3 msg2 hcmd2 heval2
  simp only [List.mem_cons, List.mem_singleton, not_or] at hcmd2
  obtain ⟨g0, gexit, gquit, ghelp, gnext, gprev, gdocs, gcheat⟩ := hcmd2
  rw [hstep1]
  simp [step, evalDispatch, g0, gexit, gquit, ghelp, gnext, gprev, gdocs,
    gcheat, hset, heval2, List.set_set]

/-- Witness for C6: two consecutive failed attempts with an oracle that adds
3 before failing: the first leaves the working value at 3, the second starts
from 3 and leaves it at 6, and each turn only prints the diagnostic. -/
theorem claim6_failed_eval_persists_witness :
    step (evBad "boom" 3)
        (step (evBad "boom" 3) sampleStart (ReadResult.ok "oops")).1
        (ReadResult.ok "oops2") =
      (⟨0, [sampleTut 9 6, sampleTut 5 1], (), (), ["oops", "oops2"],
        Mode.browsing⟩,
       [Output.bridge "oops2", Output.evalErr "boom"]) := by
  have h := (claim6_failed_eval_persists (evBad "boom" 3) 0 sampleTuts () ()
    [] (sampleTut 9 0) "oops" 3 () () "boom" (by decide) (by decide)
    rfl).2.2 "oops2" 6 () () "boom" (by decide) rfl
  exact h.trans (by decide)

/-- C7: outer-loop classification is by case-sensitive exact match with no
trimming: the empty line is a history-only no-op, each exact command string
never causes a Bridge submission (the `cheat` arm excepted, covered by C4),
and every line outside the eight exact strings — e.g. `"next "` with trailing
content — is handled purely by the evaluation route, i.e. submitted to the
Evaluation Bridge as language source. -/
theorem claim7_exact_match_classification (ev : EvalFn V C R) (i : Nat)
    (tuts : List (Tutorial V)) (cs : C) (rtS : R) (hist : List String)
    (t : Tutorial V) (ht : tuts[i]? = some t) :
    step ev ⟨i, tuts, cs, rtS, hist, Mode.browsing⟩ (ReadResult.ok "") =
      (⟨i, tuts, cs, rtS, hist ++ [""], Mode.browsing⟩, [])
    ∧ (∀ c ∈ (["exit", "quit", "help", "next", "prev", "docs"] : List String),
        ∀ p, Output.bridge p ∉
          (step ev ⟨i, tuts, cs, rtS, hist, Mode.browsing⟩
            (ReadResult.ok c)).2)
    ∧ (∀ line, line ∉ (["", "exit", "quit", "help", "next", "prev", "docs",
          "cheat"] : List String) →
        step ev ⟨i, tuts, cs, rtS, hist, Mode.browsing⟩ (ReadResult.ok line) =
          ((evalDispatch ev ⟨i, tuts, cs, rtS, hist ++ [line], Mode.browsing⟩
              t line).1,
           Output.bridge line ::
             (evalDispatch ev ⟨i, tuts, cs, rtS, hist ++ [line],
               Mode.browsing⟩ t line).2)) := by
  refine ⟨by simp [step], ?_, ?_⟩
  · intro c hc p
    simp only [List.mem_cons, List.mem_singleton] at hc
    rcases hc with rfl | rfl | rfl | rfl | rfl | rfl | h
    · simp [step]
    · simp [step]
    · simp [step]
    · simp only [step]
      repeat' split
      all_goals simp_all
    · simp only [step]
      repeat' split
      all_goals simp_all
    · simp [step, ht]
    · cases h
  · intro line hcmd
    simp only [List.mem_cons, List.mem_singleton, not_or] at hcmd
    obtain ⟨h0, hexit, hquit, hhelp, hnext, hprev, hdocs, hcheat⟩ := hcmd
    simp [step, h0, hexit, hquit, hhelp, hnext, hprev, hdocs, hcheat, ht]

/-- Witness for C7: the command word with trailing content `"next "` is routed
to the Evaluation Bridge (here mutating lesson 0's working value and printing
the expression result), while the exact `"next"` causes no submission. -/
theorem claim7_exact_match_classification_witness :
    step (evAdd 1 0) sampleStart (ReadResult.ok "next ") =
      (⟨0, [sampleTut 9 1, sampleTut 5 1], (), (), ["next "], Mode.browsing⟩,
       [Output.bridge "next ", Output.result 0])
    ∧ Output.bridge "next" ∉
        (step (evAdd 1 0) sampleStart (ReadResult.ok "next")).2 := by
  constructor
  · have h := (claim7_exact_match_classification (evAdd 1 0) 0 sampleTuts ()
      () [] (sampleTut 9 0) (by decide)).2.2 "next " (by decide)
    exact h.trans (by decide)
  · exact (claim7_exact_match_classification (evAdd 1 0) 0 sampleTuts () ()
      [] (sampleTut 9 0) (by decide)).2.1 "next" (by decide) "next"

/-- Counterexample to C8 as stated: in the source the `exit`/`quit` guard on
the outer read (line 46) fires before `rl.add_history_entry` (line 48), so
`"exit"` is never appended to the recall history. -/
theorem claim8_history_counterexample :
    (step (evAdd 1 0) sampleStart (ReadResult.ok "exit")).1.history ≠
      sampleStart.history ++ ["exit"] := by
  decide

/-- C8 amended: every line successfully read by the outer session loop except
`"exit"` and `"quit"` (whose arm breaks the loop before the history append) is
appended to the session-scoped recall history before it is acted on, while
lines read by the nested gated-acknowledgment loop are never appended to that
history. -/
theorem claim8_history_amended (ev : EvalFn V C R) (i : Nat)
    (tuts : List (Tutorial V)) (cs : C) (rtS : R) (hist : List String) :
    (∀ line, line ≠ "exit" → line ≠ "quit" →
        (step ev ⟨i, tuts, cs, rtS, hist, Mode.browsing⟩
          (ReadResult.ok line)).1.history = hist ++ [line])
    ∧ (∀ line ∈ (["exit", "quit"] : List String),
        (step ev ⟨i, tuts, cs, rtS, hist, Mode.browsing⟩
          (ReadResult.ok line)).1.history = hist)
    ∧ (∀ r, (step ev ⟨i, tuts, cs, rtS, hist, Mode.gated⟩ r).1.history =
        hist) := by
  refine ⟨?_, ?_, ?_⟩
  · intro line he hq
    simp only [step, evalDispatch]
    repeat' split
    all_goals simp_all
  · intro line hl
    simp only [List.mem_cons, List.mem_singleton] at hl
    rcases hl with rfl | rfl | h
    · simp [step]
    · simp [step]
    · cases h
  · intro r
    cases r
    all_goals simp only [step]
    all_goals repeat' split
    all_goals simp_all

/-- Witness for the amended C8: a language line is appended to the outer
history, and a line read while gated is not. -/
theorem claim8_history_amended_witness :
    (step (evAdd 1 0) sampleStart (ReadResult.ok "abc")).1.history = ["abc"]
    ∧ (step (evAdd 1 0) ⟨0, sampleTuts, (), (), ["go"], Mode.gated⟩
        (ReadResult.ok "abc")).1.history = ["go"] := by
  constructor
  · exact (claim8_history_amended (evAdd 1 0) 0 sampleTuts () () []).1
      "abc" (by decide) (by decide)
  · exact (claim8_history_amended (evAdd 1 0) 0 sampleTuts () () ["go"]).2.2
      (ReadResult.ok "abc")

/-- Counterexample to C9 as stated: in the nested `'next` loop (source lines
122-137) the catch-all `_` arm also matches `Err(Interrupted)` and
`Err(Eof)`, so while gated an interrupt prints the re-prompt reminder and the
session does not terminate.  `sampleGated` is the gated state actually
reached by solving lesson 0. -/
theorem claim9_interrupt_counterexample :
    sampleGated.mode = Mode.gated
    ∧ (step (evAdd 9 0) sampleGated ReadResult.interrupted).1.mode ≠
        Mode.terminated
    ∧ (step (evAdd 9 0) sampleGated ReadResult.interrupted).2 ≠ [] := by
  decide

/-- C9 amended: in the outer loop, a read yielding Interrupted or EndOfInput
terminates the session immediately with no further output (and `tutorial()`
returns success, as it does on every exit path); in the nested
gated-acknowledgment loop, Interrupted and EndOfInput are caught by the
catch-all arm like any unrecognized input: the re-prompt reminder is printed
and the loop re-reads, the session remaining gated. -/
theorem claim9_interrupt_amended (ev : EvalFn V C R) (i : Nat)
    (tuts : List (Tutorial V)) (cs : C) (rtS : R) (hist : List String) :
    step ev ⟨i, tuts, cs, rtS, hist, Mode.browsing⟩ ReadResult.interrupted =
      (⟨i, tuts, cs, rtS, hist, Mode.terminated⟩, [])
    ∧ step ev ⟨i, tuts, cs, rtS, hist, Mode.browsing⟩ ReadResult.eof =
        (⟨i, tuts, cs, rtS, hist, Mode.terminated⟩, [])
    ∧ step ev ⟨i, tuts, cs, rtS, hist, Mode.gated⟩ ReadResult.interrupted =
        (⟨i, tuts, cs, rtS, hist, Mode.gated⟩, [Output.reprompt])
    ∧ step ev ⟨i, tuts, cs, rtS, hist, Mode.gated⟩ ReadResult.eof =
        (⟨i, tuts, cs, rtS, hist, Mode.gated⟩, [Output.reprompt]) := by
  exact ⟨by simp [step], by simp [step], by simp [step], by simp [step]⟩

/-- C10: correctness is judged only by comparing the working value with the
target after a successful evaluation: returning via `"prev"` to a lesson
whose working value already equals its target, any line that evaluates
successfully without disturbing that value re-triggers the full success path
(success message, then the gate — or, on the final lesson, completion and
termination). -/
theorem claim10_revisit_success (ev : EvalFn V C R) (i : Nat)
    (tuts : List (Tutorial V)) (cs : C) (rtS : R) (hist : List String)
    (t : Tutorial V) (line : String) (cs2 : C) (rt2 : R) (res : V)
    (ht : tuts[i]? = some t)
    (hsolved : t.initial_event = t.correct_answer)
    (hcmd : line ∉ (["", "exit", "quit", "help", "next", "prev", "docs",
      "cheat"] : List String))
    (heval : ev line t.initial_event cs rtS = ⟨t.initial_event, cs2, rt2,
      Except.ok res⟩) :
    (i + 1 < tuts.length →
        (step ev ⟨i + 1, tuts, cs, rtS, hist, Mode.browsing⟩
            (ReadResult.ok "prev")).1 =
          ⟨i, tuts, cs, rtS, hist ++ ["prev"], Mode.browsing⟩
        ∧ step ev ⟨i, tuts, cs, rtS, hist ++ ["prev"], Mode.browsing⟩
            (ReadResult.ok line) =
          (⟨i, tuts.set i { t with initial_event := t.initial_event }, cs2,
            rt2, hist ++ ["prev", line], Mode.gated⟩,
           [Output.bridge line, Output.clearScreen,
            Output.success t.initial_event,
            Output.progress (i + 1) tuts.length (i + 2)]))
    ∧ (i + 1 = tuts.length →
        step ev ⟨i, tuts, cs, rtS, hist, Mode.browsing⟩ (ReadResult.ok line) =
          (⟨i, tuts.set i { t with initial_event := t.initial_event }, cs2,
            rt2, hist ++ [line], Mode.terminated⟩,
           [Output.bridge line, Output.clearScreen,
            Output.success t.initial_event, Output.completion])) := by
  simp only [List.mem_cons, List.mem_singleton, not_or] at hcmd
  obtain ⟨h0, hexit, hquit, hhelp, hnext, hprev, hdocs, hcheat⟩ := hcmd
  have heval2 : ev line t.correct_answer cs rtS =
      ⟨t.correct_answer, cs2, rt2, Except.ok res⟩ := by
    rw [← hsolved]
    exact heval
  constructor
  · intro hlt
    have hne : i + 1 ≠ tuts.length := Nat.ne_of_lt hlt
    constructor
    · simp [step, ht]
    · simp [step, evalDispatch, h0, hexit, hquit, hhelp, hnext, hprev,
        hdocs, hcheat, ht, hsolved, heval2, hne]
  · intro hlen
    simp [step, evalDispatch, h0, hexit, hquit, hhelp, hnext, hprev, hdocs,
      hcheat, ht, hsolved, heval2, hlen]

/-- Witness for C10: with lesson 0 already solved (working value 9 equals the
target), stepping back from lesson 1 via `"prev"` and entering any line the
oracle evaluates without disturbing the value re-triggers the success message
and the gate. -/
theorem claim10_revisit_success_witness :
    (step (evAdd 0 7) ⟨1, [sampleTut 9 9, sampleTut 5 1], (), (), [],
        Mode.browsing⟩ (ReadResult.ok "prev")).1 =
      ⟨0, [sampleTut 9 9, sampleTut 5 1], (), (), ["prev"], Mode.browsing⟩
    ∧ step (evAdd 0 7) ⟨0, [sampleTut 9 9, sampleTut 5 1], (), (), ["prev"],
        Mode.browsing⟩ (ReadResult.ok ". ") =
      (⟨0, [sampleTut 9 9, sampleTut 5 1], (), (), ["prev", ". "],
        Mode.gated⟩,
       [Output.bridge ". ", Output.clearScreen, Output.success 9,
        Output.progress 1 2 2]) := by
  have h := (claim10_revisit_success (evAdd 0 7) 0
    [sampleTut 9 9, sampleTut 5 1] () () [] (sampleTut 9 9) ". " () () 7
    (by decide) rfl (by decide) rfl).1 (by decide)
  exact ⟨h.1.trans (by decide), h.2.trans (by decide)⟩

end VRLTutorial
